import Mathlib

/-!
Shallow embedding of the rollstarts process orchestration core.

The orchestrator side is translated from the `RollStartsManager` class
(the newer variant shipped alongside `src/constants.js`): its `restart()`
method, the per-process message handler and the per-process exit handler.
The worker-client side is translated from the CJS entry point
(`master`, `restart`, `exit`, `ready`) and, where it differs, the ESM
entry point.  OS processes are identified by their pid (a `Nat`) and
promises by a numeric id; side effects that leave the manager (spawning,
kill signals, IPC sends, emitted events, supervisor exit) are recorded as
an explicit `Effect` trace in the order the code performs them.
-/

namespace RollStarts

/-- Wire and environment constants from `src/constants.js`. -/
def IPC_DEFAULT_TIMEOUT_MS : Nat := 5000

def IS_READY_TO_SERVE : String := "ROLLSTARTS_IS_READY_TO_SERVE"

def SHOULD_BEGIN_TO_SERVE : String := "ROLLSTARTS_SHOULD_BEGIN_TO_SERVE"

def IS_ROLLSTARTS_INITIAL_PROCESS : String := "ROLLSTARTS_IS_ROLLSTARTS_INITIAL_PROCESS"

def IS_ROLLSTARTS_RECURRING_PROCESS : String := "ROLLSTARTS_IS_ROLLSTARTS_RECURRING_PROCESS"

/-- Modelled from the spec: the restart-request message token.  The manager
and the worker client both reference `RS_CONSTANTS.REQUEST_RESTART`, but the
`RS_CONSTANTS` object present under src lacks this key; the spec defines the
restart-request message of the handshake protocol, so the token is modelled
here as a distinct message string in the same naming scheme. -/
def REQUEST_RESTART : String := "ROLLSTARTS_REQUEST_RESTART"

/-- Modelled from the spec: the exit-request message token (the message is
this token followed by the optional code).  As with `REQUEST_RESTART`, the
key is referenced by the code but missing from the `RS_CONSTANTS` object
present under src; the spec defines the exit-request(code) message of the
handshake protocol. -/
def REQUEST_EXIT : String := "ROLLSTARTS_REQUEST_EXIT"

/-- Role marker chosen for a spawned worker (which environment variable the
manager sets before spawning). -/
inductive Role
  | initialRole
  | recurringRole
deriving Repr, DecidableEq

/-- Argument given to `process.exit` by the manager when honouring an
exit-request: absent, numeric, or a raw string. -/
inductive ExitArg
  | noArg
  | intArg (n : Int)
  | strArg (s : String)
deriving Repr, DecidableEq

/-- Externally visible side effects of the manager, recorded in order. -/
inductive Effect
  | spawn (pid : Nat) (role : Role)
  | kill (pid : Nat)
  | send (pid : Nat) (msg : String)
  | emitActive (pid : Nat)
  | emitExit (pid : Nat) (code : Int)
  | emitRecover (remaining : Nat)
  | clearMessageListeners (pid : Nat)
  | masterExit (arg : ExitArg)
deriving Repr, DecidableEq

/-- Settlement state of one promise. -/
inductive PromiseState
  | pending
  | resolved
  | rejected (err : String)
deriving Repr, DecidableEq

/-- State of a `RollStartsManager`: the private fields of the class, a
table tracking the settlement of every restart promise ever created, and
fresh-id counters standing in for OS pid assignment and promise identity. -/
structure ManagerState where
  recover : Option Bool
  recover_attempts : Nat
  active_process : Option Nat
  temporary_process : Option Nat
  restart_promise : Option Nat
  promises : List (Nat × PromiseState)
  next_pid : Nat
  next_promise : Nat
deriving Repr, DecidableEq

/-- JS `options.recover_attempts || 100` from the constructor: an absent or
zero (falsy) value yields the default of 100. -/
def initRecoverAttempts (v : Option Nat) : Nat :=
  match v with
  | some n => if n = 0 then 100 else n
  | none => 100

/-- Settle one promise in the table: only a pending entry changes. -/
def settlePromise (ps : List (Nat × PromiseState)) (q : Nat) (v : PromiseState) :
    List (Nat × PromiseState) :=
  ps.map fun e => if e.1 = q ∧ e.2 = PromiseState.pending then (e.1, v) else e

/-- Status of promise `q` in the table (first matching entry). -/
def findStatus (ps : List (Nat × PromiseState)) (q : Nat) : Option PromiseState :=
  match ps with
  | [] => none
  | e :: t => if e.1 = q then some e.2 else findStatus t q

/-- JS `a?.pid || b?.pid` over optional process handles. -/
def jsOrPid (a b : Option Nat) : Option Nat :=
  match a with
  | some n => if n = 0 then b else some n
  | none => b

/-- Model of JS `String.prototype.startsWith`. -/
def strStartsWith (s p : String) : Bool :=
  decide (List.take p.data.length s.data = p.data)

/-- Model of JS `message.replace(prefix, "")` in the position where the
message is known to start with the prefix: drop the prefix. -/
def strDropHead (s p : String) : String :=
  String.mk (List.drop p.data.length s.data)

/-- `restart()`: if a restart promise exists it is returned as is (no
spawn); otherwise a worker is spawned with the role derived from the
presence of an active process, recorded as the temporary process, and a
fresh pending restart promise is created and returned. -/
def ManagerState.restart (s : ManagerState) : ManagerState × List Effect × Nat :=
  match s.restart_promise with
  | some q => (s, [], q)
  | none =>
    let role := if s.active_process.isSome then Role.recurringRole else Role.initialRole
    let p := s.next_pid
    let q := s.next_promise
    ({ s with restart_promise := some q
            , temporary_process := some p
            , promises := s.promises ++ [(q, PromiseState.pending)]
            , next_pid := p + 1
            , next_promise := q + 1 }
    , [Effect.spawn p role], q)

/-- Decimal digit accumulation over a character list; fails on the first
non-digit character. -/
def digitsToNat (l : List Char) (acc : Nat) : Option Nat :=
  match l with
  | [] => some acc
  | c :: t => if c.isDigit then digitsToNat t (acc * 10 + (c.toNat - 48)) else none

/-- Integer parse of a string, modelling the JS numeric coercion
`+stripped` on integer payloads: an optional leading minus sign followed by
decimal digits; anything else is not a number. -/
def strToIntModel (s : String) : Option Int :=
  match s.data with
  | [] => none
  | List.cons c t =>
    if c = '-' then
      if t = [] then none else (digitsToNat t 0).map fun n => -(n : Int)
    else (digitsToNat (List.cons c t) 0).map fun n => (n : Int)

/-- Natural number parse of a string, modelling the JS numeric coercion on
the timeout environment variable (the manager always writes a decimal
natural there). -/
def strToNatModel (s : String) : Option Nat :=
  match s.data with
  | [] => none
  | l => digitsToNat l 0

/-- Parsing of the optional exit code carried after the exit-request token:
an empty remainder means no argument, a numeric remainder is used as a
number, anything else is kept as a string.  The JS numeric test
`isNaN(+stripped)` is modelled with `strToIntModel`; the worker client
interpolates the code with a template literal. -/
def parseExitArg (stripped : String) : ExitArg :=
  if stripped = "" then ExitArg.noArg
  else match strToIntModel stripped with
    | some n => ExitArg.intArg n
    | none => ExitArg.strArg stripped

/-- The message handler the manager installs on a spawned process: `p` is
the pid of that process and `q` the id of the restart promise whose resolve
and reject the handler closes over.  Branches in source order: the
ready-to-serve case (kill the active process, promote, emit active, clear
the temporary slot on pid match, send begin-serving, resolve if a restart
promise is present), the restart-request case (call restart), and the
default case testing for the exit-request prefix (parse the optional code,
disable recovery, kill the sender, exit the supervisor). -/
def ManagerState.onMessage (s : ManagerState) (p q : Nat) (msg : String) :
    ManagerState × List Effect :=
  if msg = IS_READY_TO_SERVE then
    let kills := match s.active_process with
      | some a => [Effect.kill a]
      | none => []
    let temp1 := match s.temporary_process with
      | some t => if t = p then none else some t
      | none => none
    let effs := kills ++ [Effect.emitActive p, Effect.send p SHOULD_BEGIN_TO_SERVE]
    match s.restart_promise with
    | some _ =>
      ({ s with active_process := some p
              , temporary_process := temp1
              , restart_promise := none
              , promises := settlePromise s.promises q PromiseState.resolved }, effs)
    | none =>
      ({ s with active_process := some p, temporary_process := temp1 }, effs)
  else if msg = REQUEST_RESTART then
    let r := s.restart
    (r.1, r.2.1)
  else if strStartsWith msg REQUEST_EXIT then
    ({ s with recover := some false }
    , [Effect.kill p, Effect.masterExit (parseExitArg (strDropHead msg REQUEST_EXIT))])
  else (s, [])

/-- The rejection message built by the exit handler. -/
def exitErrMsg (pid : Nat) (code : Int) : String :=
  "RollStartsManager: Child Process " ++ toString pid ++ " Exited With Code " ++ toString code

/-- The exit handler the manager installs on a spawned process (`p` its
pid, `q` its closed-over restart promise, `code` the exit code).  In source
order: remove the message listeners, read the last active pid, clear the
active and temporary slots on pid match, emit the exit event, clear and
reject the restart promise if one is present, and run the recovery policy
when recovery is enabled and the exited pid equals the last active pid. -/
def ManagerState.onExit (s : ManagerState) (p q : Nat) (code : Int) :
    ManagerState × List Effect :=
  let last_active_pid := jsOrPid s.active_process s.temporary_process
  let active1 := match s.active_process with
    | some a => if a = p then none else some a
    | none => none
  let temp1 := match s.temporary_process with
    | some t => if t = p then none else some t
    | none => none
  let s1 := { s with active_process := active1, temporary_process := temp1 }
  let s2 := match s.restart_promise with
    | some _ =>
      { s1 with restart_promise := none
              , promises := settlePromise s1.promises q (PromiseState.rejected (exitErrMsg p code)) }
    | none => s1
  let base := [Effect.clearMessageListeners p, Effect.emitExit p code]
  let should_recover := s.recover.getD true
  if should_recover ∧ last_active_pid = some p then
    if 0 < s2.recover_attempts then
      let s3 := { s2 with recover_attempts := s2.recover_attempts - 1 }
      let r := s3.restart
      (r.1, base ++ r.2.1 ++ [Effect.emitRecover s3.recover_attempts])
    else
      (s2, base ++ [Effect.emitRecover s2.recover_attempts])
  else
    (s2, base)

/-- Environment and channel state seen by the worker client: which role
markers are set, whether the IPC channel to the master is connected, the
raw value of the IPC timeout environment variable, and the memoized ready
promise (the module-level `ready_promise`, if one was already created). -/
structure ClientEnv where
  initial_marker : Bool
  recurring_marker : Bool
  connected : Bool
  ipc_timeout_env : Option String
  memo_exists : Bool
deriving Repr, DecidableEq

/-- `master()` from the entry points: true iff neither role marker is set. -/
def master (env : ClientEnv) : Bool :=
  !env.initial_marker && !env.recurring_marker

/-- Side effects of the worker client, recorded in order. -/
inductive ClientEffect
  | sendToMaster (msg : String)
  | bindListener
  | armTimer (ms : Nat)
deriving Repr, DecidableEq

/-- State of the pending ready wait created by `ready()` on a recurring
worker: whether its message listener is still bound, whether its timer is
still armed, and the settlement of its promise. -/
structure WaitState where
  listener_bound : Bool
  timer_armed : Bool
  promise : PromiseState
deriving Repr, DecidableEq

/-- Result of a `ready()` call: an already settled promise, or a pending
wait. -/
inductive ReadyOutcome
  | resolvedNow
  | rejectedNow (err : String)
  | waiting (w : WaitState)
deriving Repr, DecidableEq

/-- JS `+process.env[RS_CONSTANTS.IPC_TIMEOUT_MS] || IPC_DEFAULT_TIMEOUT_MS`:
an absent, non-numeric or zero value falls back to the default.  The numeric
parse is modelled with `strToNatModel`; the manager always writes a decimal
natural here. -/
def ipcTimeoutMs (v : Option String) : Nat :=
  match v with
  | none => IPC_DEFAULT_TIMEOUT_MS
  | some raw =>
    match strToNatModel raw with
    | some n => if n = 0 then IPC_DEFAULT_TIMEOUT_MS else n
    | none => IPC_DEFAULT_TIMEOUT_MS

def notConnectedErr : String :=
  "RollStarts: The process is not connected to the master process with an IPC channel."

def notChildErr : String :=
  "RollStarts: This process is NOT a child process."

/-- `ready()` from the CJS entry point.  The initial branch sends the
ready-to-serve message and resolves immediately; the recurring branch
requires a connected channel, returns the memoized wait when one exists,
and otherwise arms the timeout, binds the message listener and sends
ready-to-serve, returning a pending wait; any other caller is rejected. -/
def ready (env : ClientEnv) : List ClientEffect × ReadyOutcome :=
  if env.initial_marker then
    ([ClientEffect.sendToMaster IS_READY_TO_SERVE], ReadyOutcome.resolvedNow)
  else if env.recurring_marker then
    if !env.connected then ([], ReadyOutcome.rejectedNow notConnectedErr)
    else if env.memo_exists then ([], ReadyOutcome.waiting
      { listener_bound := true, timer_armed := true, promise := PromiseState.pending })
    else
      let t := ipcTimeoutMs env.ipc_timeout_env
      ([ClientEffect.armTimer t, ClientEffect.bindListener,
        ClientEffect.sendToMaster IS_READY_TO_SERVE]
      , ReadyOutcome.waiting
          { listener_bound := true, timer_armed := true, promise := PromiseState.pending })
  else ([], ReadyOutcome.rejectedNow notChildErr)

/-- `ready()` from the ESM entry point: identical except that the initial
branch returns an immediately resolved promise without sending anything. -/
def readyEsm (env : ClientEnv) : List ClientEffect × ReadyOutcome :=
  if env.initial_marker then
    ([], ReadyOutcome.resolvedNow)
  else if env.recurring_marker then
    if !env.connected then ([], ReadyOutcome.rejectedNow notConnectedErr)
    else if env.memo_exists then ([], ReadyOutcome.waiting
      { listener_bound := true, timer_armed := true, promise := PromiseState.pending })
    else
      let t := ipcTimeoutMs env.ipc_timeout_env
      ([ClientEffect.armTimer t, ClientEffect.bindListener,
        ClientEffect.sendToMaster IS_READY_TO_SERVE]
      , ReadyOutcome.waiting
          { listener_bound := true, timer_armed := true, promise := PromiseState.pending })
  else ([], ReadyOutcome.rejectedNow notChildErr)

/-- `restart()` from the CJS entry point: a child sends the restart-request
token; calling from the master throws. -/
def clientRestart (env : ClientEnv) : Except String (List ClientEffect) :=
  if !(master env) then Except.ok [ClientEffect.sendToMaster REQUEST_RESTART]
  else Except.error notChildErr

/-- A JS value interpolated into the exit-request template string. -/
inductive JsVal
  | undef
  | vnull
  | vnum (n : Int)
  | vstr (s : String)
deriving Repr, DecidableEq

/-- JS template-literal rendering of the exit code argument. -/
def jsTemplate : JsVal → String
  | JsVal.undef => "undefined"
  | JsVal.vnull => "null"
  | JsVal.vnum n => toString n
  | JsVal.vstr s => s

/-- `exit(code)` from the CJS entry point: a child sends the exit-request
token with the code appended; calling from the master throws. -/
def clientExit (env : ClientEnv) (code : JsVal) : Except String (List ClientEffect) :=
  if !(master env) then
    Except.ok [ClientEffect.sendToMaster (REQUEST_EXIT ++ jsTemplate code)]
  else Except.error notChildErr

/-- Actions performed by the ready-wait handlers, recorded in order. -/
inductive ClientAction
  | removeListener
  | rejectWait (err : String)
  | resolveWait
  | clearTimer
deriving Repr, DecidableEq

/-- Settle a single promise: only a pending promise changes. -/
def settleOne (p v : PromiseState) : PromiseState :=
  match p with
  | PromiseState.pending => v
  | other => other

/-- The timeout error message built by the timer handler. -/
def timeoutErr (ms : Nat) : String :=
  "RollStarts: The Master Process Did Not Respond Within The IPC Delay Of "
    ++ toString ms ++ "ms"

/-- The `setTimeout` handler of the ready wait: when the timer fires it
first removes the message listener from the channel and then rejects the
promise with the timeout error. -/
def WaitState.timerFire (w : WaitState) (ms : Nat) : WaitState × List ClientAction :=
  if w.timer_armed then
    ({ listener_bound := false, timer_armed := false
     , promise := settleOne w.promise (PromiseState.rejected (timeoutErr ms)) }
    , [ClientAction.removeListener, ClientAction.rejectWait (timeoutErr ms)])
  else (w, [])

/-- Delivery of a channel message to the ready wait: the listener runs only
while it is bound, and on the begin-serving message it resolves the
promise, removes itself and clears the timer. -/
def WaitState.deliver (w : WaitState) (msg : String) : WaitState × List ClientAction :=
  if w.listener_bound then
    if msg = SHOULD_BEGIN_TO_SERVE then
      ({ listener_bound := false, timer_armed := false
       , promise := settleOne w.promise PromiseState.resolved }
      , [ClientAction.resolveWait, ClientAction.removeListener, ClientAction.clearTimer])
    else (w, [])
  else (w, [])

/-- Modelled from the spec: the `destroy()` implementation is absent from
src (only the type declarations describe it).  Per the spec, shutdown must
terminate all tracked workers and put the manager in a terminal destroyed
state in which every further `restart()` call is rejected.  The manager
state is wrapped with a destroyed flag consulted by the guarded restart. -/
structure DestroyableManager where
  st : ManagerState
  destroyed : Bool
deriving Repr, DecidableEq

def destroyedErr : String :=
  "RollStartsManager: The manager has been destroyed."

/-- Modelled from the spec: `destroy()` kills the tracked active and
pending workers, clears their slots and marks the manager destroyed. -/
def DestroyableManager.destroy (m : DestroyableManager) :
    DestroyableManager × List Effect :=
  let kills :=
    (match m.st.active_process with
      | some a => [Effect.kill a]
      | none => []) ++
    (match m.st.temporary_process with
      | some t => [Effect.kill t]
      | none => [])
  ({ st := { m.st with active_process := none, temporary_process := none }
   , destroyed := true }, kills)

/-- Modelled from the spec: `restart()` on a destroyed manager is rejected
and spawns nothing; otherwise it behaves as the manager restart. -/
def DestroyableManager.restart (m : DestroyableManager) :
    DestroyableManager × List Effect × Except String Nat :=
  if m.destroyed then (m, [], Except.error destroyedErr)
  else
    let r := m.st.restart
    ({ st := r.1, destroyed := false }, r.2.1, Except.ok r.2.2)

/-- A sequence of `n` consecutive guarded restart calls, collecting each
returned completion result. -/
def restartSeq (m : DestroyableManager) : Nat → DestroyableManager × List (Except String Nat)
  | 0 => (m, [])
  | Nat.succ n =>
    let r := m.restart
    let rest := restartSeq r.1 n
    (rest.1, r.2.2 :: rest.2)

/-- A sequence of `n` consecutive `restart()` calls on the manager,
collecting all effects and every returned promise id. -/
def restartCalls (s : ManagerState) : Nat → ManagerState × List Effect × List Nat
  | 0 => (s, [], [])
  | Nat.succ n =>
    let r := s.restart
    let rest := restartCalls r.1 n
    (rest.1, r.2.1 ++ rest.2.1, r.2.2 :: rest.2.2)

/-- Spawn effects in a trace. -/
def isSpawnEffect : Effect → Bool
  | Effect.spawn _ _ => true
  | _ => false

def countSpawns : List Effect → Nat
  | [] => 0
  | e :: t => (if isSpawnEffect e then 1 else 0) + countSpawns t

/-- Concrete manager state with a transition in flight (promise 7 pending),
used to instantiate general theorems. -/
def inFlightState : ManagerState :=
  { recover := none, recover_attempts := 100, active_process := some 1
  , temporary_process := some 2, restart_promise := some 7
  , promises := [(7, PromiseState.pending)], next_pid := 3, next_promise := 8 }

/-- Concrete manager state with no transition in flight. -/
def idleState : ManagerState :=
  { recover := none, recover_attempts := 100, active_process := some 1
  , temporary_process := none, restart_promise := none
  , promises := [], next_pid := 2, next_promise := 1 }

/-- Reachable scenario for the recovery policy: a manager whose first
worker (pid 10, promise 100) became active and whose second worker
(pid 11, promise 101) is still pending. -/
def recStateA : ManagerState :=
  { recover := none, recover_attempts := 5, active_process := none
  , temporary_process := none, restart_promise := none, promises := []
  , next_pid := 10, next_promise := 100 }

def recStateB : ManagerState := recStateA.restart.1

def recStateC : ManagerState := (recStateB.onMessage 10 100 IS_READY_TO_SERVE).1

def recStateD : ManagerState := recStateC.restart.1

/-- The pending worker 11 exits while active worker 10 is still running. -/
def recExitRun : ManagerState × List Effect := recStateD.onExit 11 101 1

/-- Reachable scenario for the exit handler and the restart promise: same
shape as the recovery scenario, but with recovery disabled, and the old
active worker 10 exits first (clearing the in-flight promise slot of
promise 101), then the still pending worker 11 exits. -/
def orphanA : ManagerState :=
  { recover := some false, recover_attempts := 5, active_process := none
  , temporary_process := none, restart_promise := none, promises := []
  , next_pid := 10, next_promise := 100 }

def orphanB : ManagerState := orphanA.restart.1

def orphanC : ManagerState := (orphanB.onMessage 10 100 IS_READY_TO_SERVE).1

def orphanD : ManagerState := orphanC.restart.1

def orphanE : ManagerState := (orphanD.onExit 10 100 0).1

def orphanRun : ManagerState × List Effect := orphanE.onExit 11 101 0

/-- Worker environment with the initial role marker set. -/
def initialEnv : ClientEnv :=
  { initial_marker := true, recurring_marker := false, connected := true
  , ipc_timeout_env := none, memo_exists := false }

/-- Worker environment with the recurring role marker set, connected, no
memoized wait, no timeout override. -/
def recurringEnv : ClientEnv :=
  { initial_marker := false, recurring_marker := true, connected := true
  , ipc_timeout_env := none, memo_exists := false }

/-- A fresh pending ready wait. -/
def freshWait : WaitState :=
  { listener_bound := true, timer_armed := true, promise := PromiseState.pending }

/-- Manager state built with the recover_attempts option passed as 0. -/
def zeroAttemptsState : ManagerState :=
  { recover := none, recover_attempts := initRecoverAttempts (some 0)
  , active_process := some 3, temporary_process := none, restart_promise := none
  , promises := [], next_pid := 4, next_promise := 1 }

/-- Concrete destroyable manager with two tracked workers. -/
def liveManager : DestroyableManager :=
  { st := inFlightState, destroyed := false }

/-! Helper lemmas shared by the claim theorems. -/

theorem restart_of_inflight (s : ManagerState) (q : Nat) (h : s.restart_promise = some q) :
    s.restart = (s, [], q) := by
  simp [ManagerState.restart, h]

theorem restartCalls_inflight (s : ManagerState) (q : Nat) (h : s.restart_promise = some q) :
    ∀ n, restartCalls s n = (s, [], List.replicate n q) := by
  intro n
  induction n with
  | zero => simp [restartCalls]
  | succ n ih => simp [restartCalls, restart_of_inflight s q h, ih, List.replicate]

theorem restart_of_idle (s : ManagerState) (h : s.restart_promise = none) :
    s.restart =
      ({ s with restart_promise := some s.next_promise
              , temporary_process := some s.next_pid
              , promises := s.promises ++ [(s.next_promise, PromiseState.pending)]
              , next_pid := s.next_pid + 1
              , next_promise := s.next_promise + 1 }
      , [Effect.spawn s.next_pid
          (if s.active_process.isSome then Role.recurringRole else Role.initialRole)]
      , s.next_promise) := by
  simp [ManagerState.restart, h]

/-- Claim C1: while a restart transition is in flight (the completion
promise is non-null), every sequence of further restart() calls returns the
very same pending completion promise, changes nothing and spawns no worker;
a restart() call made with no transition in flight spawns exactly one
worker. -/
theorem restart_coalesces_in_flight (s : ManagerState) (q : Nat)
    (h : s.restart_promise = some q) (n : Nat) :
    restartCalls s n = (s, [], List.replicate n q) ∧
    countSpawns (restartCalls s n).2.1 = 0 ∧
    ∀ s0 : ManagerState, s0.restart_promise = none → countSpawns s0.restart.2.1 = 1 := by
  refine ⟨restartCalls_inflight s q h n, ?_, ?_⟩
  · rw [restartCalls_inflight s q h n]
    simp [countSpawns]
  · intro s0 h0
    rw [restart_of_idle s0 h0]
    simp [countSpawns, isSpawnEffect]

/-- Witness for claim C1 at a concrete in-flight state and three coalesced
calls, plus one idle call. -/
theorem restart_coalesces_in_flight_witness :
    restartCalls inFlightState 3 = (inFlightState, [], [7, 7, 7]) ∧
    countSpawns idleState.restart.2.1 = 1 := by
  have h := restart_coalesces_in_flight inFlightState 7 rfl 3
  exact ⟨h.1, h.2.2 idleState rfl⟩

/-- Claim C2: when the manager receives the ready-to-serve message from the
pending worker while another worker is active, it kills the active worker
and, without waiting for its exit, promotes the pending worker to be the
sole active worker, clears the pending slot, emits the active event for the
new worker, sends the begin-serving message to it, and clears and resolves
the in-flight restart promise; the old worker is no longer the active
worker afterward. -/
theorem ready_promotes_pending_worker (s : ManagerState) (p q old : Nat)
    (hact : s.active_process = some old) (htemp : s.temporary_process = some p)
    (hq : s.restart_promise = some q) (hne : old ≠ p) :
    s.onMessage p q IS_READY_TO_SERVE =
      ({ s with active_process := some p
              , temporary_process := none
              , restart_promise := none
              , promises := settlePromise s.promises q PromiseState.resolved }
      , [Effect.kill old, Effect.emitActive p, Effect.send p SHOULD_BEGIN_TO_SERVE]) ∧
    (s.onMessage p q IS_READY_TO_SERVE).1.active_process ≠ some old := by
  have hmain : s.onMessage p q IS_READY_TO_SERVE =
      ({ s with active_process := some p
              , temporary_process := none
              , restart_promise := none
              , promises := settlePromise s.promises q PromiseState.resolved }
      , [Effect.kill old, Effect.emitActive p, Effect.send p SHOULD_BEGIN_TO_SERVE]) := by
    simp [ManagerState.onMessage, hact, htemp, hq]
  refine ⟨hmain, ?_⟩
  rw [hmain]
  simp
  exact fun hc => hne hc.symm

/-- Witness for claim C2: the pending worker 2 reports readiness while
worker 1 is active and promise 7 is in flight. -/
theorem ready_promotes_pending_worker_witness :
    inFlightState.onMessage 2 7 IS_READY_TO_SERVE =
      ({ recover := none, recover_attempts := 100, active_process := some 2
        , temporary_process := none, restart_promise := none
        , promises := [(7, PromiseState.resolved)], next_pid := 3, next_promise := 8 }
      , [Effect.kill 1, Effect.emitActive 2, Effect.send 2 SHOULD_BEGIN_TO_SERVE]) ∧
    (inFlightState.onMessage 2 7 IS_READY_TO_SERVE).1.active_process ≠ some 1 := by
  have h := ready_promotes_pending_worker inFlightState 2 7 1 rfl rfl rfl (by decide)
  exact ⟨h.1, h.2⟩

/-- Claim C3 counterexample: in the reachable state where worker 10 is
active and worker 11 is still pending with recovery enabled (option unset,
default true) and a positive budget, the exit of the pending worker 11
triggers no automatic restart, leaves the budget unchanged at 5, and emits
no recover event, refuting the claim that an exit of the active or pending
worker with a positive budget triggers exactly one restart, decrements the
budget, and emits a recover notification. -/
theorem exit_recovery_policy_cex :
    recStateD.active_process = some 10 ∧
    recStateD.temporary_process = some 11 ∧
    recStateD.recover = none ∧
    0 < recStateD.recover_attempts ∧
    recExitRun.2 = [Effect.clearMessageListeners 11, Effect.emitExit 11 1] ∧
    countSpawns recExitRun.2 = 0 ∧
    recExitRun.1.recover_attempts = 5 := by
  decide

/-- Claim C3 (amended): for every worker exit event, if automatic recovery
is enabled and the exited worker matches the last active pid, that is the
pid of the active worker or, when no active worker exists, the pid of the
pending worker, both read before the slots are cleared, then: with a
strictly positive recovery budget exactly one new restart cycle is
triggered and the budget decreases by exactly one, and with a zero budget
no automatic restart occurs; in either case a recover notification carrying
the remaining budget is emitted.  An exit of the pending worker while a
different active worker exists does not match and triggers neither a
restart nor a recover notification. -/
theorem exit_recovery_policy (s : ManagerState) (p q : Nat) (code : Int)
    (hrec : s.recover.getD true = true)
    (hlast : jsOrPid s.active_process s.temporary_process = some p) :
    (0 < s.recover_attempts →
       countSpawns (s.onExit p q code).2 = 1 ∧
       (s.onExit p q code).1.recover_attempts = s.recover_attempts - 1 ∧
       Effect.emitRecover (s.recover_attempts - 1) ∈ (s.onExit p q code).2) ∧
    (s.recover_attempts = 0 →
       countSpawns (s.onExit p q code).2 = 0 ∧
       (s.onExit p q code).1.recover_attempts = 0 ∧
       Effect.emitRecover 0 ∈ (s.onExit p q code).2) := by
  constructor
  · intro hpos
    cases hsp : s.restart_promise with
    | none =>
      simp [ManagerState.onExit, hrec, hlast, hsp, hpos, ManagerState.restart,
        countSpawns, isSpawnEffect]
    | some q1 =>
      simp [ManagerState.onExit, hrec, hlast, hsp, hpos, ManagerState.restart,
        countSpawns, isSpawnEffect]
  · intro hzero
    cases hsp : s.restart_promise with
    | none =>
      simp [ManagerState.onExit, hrec, hlast, hsp, hzero, countSpawns, isSpawnEffect]
    | some q1 =>
      simp [ManagerState.onExit, hrec, hlast, hsp, hzero, countSpawns, isSpawnEffect]

/-- Witness for claim C3 (amended): the active worker 1 of a concrete idle
state exits with budget 100; exactly one restart is spawned and the budget
becomes 99. -/
theorem exit_recovery_policy_witness :
    countSpawns (idleState.onExit 1 9 2).2 = 1 ∧
    (idleState.onExit 1 9 2).1.recover_attempts = 99 ∧
    Effect.emitRecover 99 ∈ (idleState.onExit 1 9 2).2 := by
  have h := (exit_recovery_policy idleState 1 9 2 (by decide) (by decide)).1 (by decide)
  exact ⟨h.1, h.2.1, h.2.2⟩

theorem findStatus_settle_self (ps : List (Nat × PromiseState)) (q : Nat) (v : PromiseState) :
    findStatus (settlePromise ps q v) q =
      (findStatus ps q).map (fun st => if st = PromiseState.pending then v else st) := by
  induction ps with
  | nil => simp [findStatus, settlePromise]
  | cons e t ih =>
    by_cases h1 : e.1 = q
    · by_cases h2 : e.2 = PromiseState.pending
      · simp [findStatus, settlePromise, h1, h2]
      · simp [findStatus, settlePromise, h1, h2]
    · simpa [findStatus, settlePromise, h1] using ih

theorem findStatus_settle_ne (ps : List (Nat × PromiseState)) (q : Nat) (v : PromiseState)
    (q2 : Nat) (h : q2 ≠ q) :
    findStatus (settlePromise ps q v) q2 = findStatus ps q2 := by
  induction ps with
  | nil => simp [findStatus, settlePromise]
  | cons e t ih =>
    have ih2 : findStatus
        (List.map (fun e => if e.1 = q ∧ e.2 = PromiseState.pending then (e.1, v) else e) t)
        q2 = findStatus t q2 := by
      simpa [settlePromise] using ih
    by_cases h1 : e.1 = q
    · by_cases h2 : e.2 = PromiseState.pending
      · simp [findStatus, settlePromise, h1, h2, ih2, Ne.symm h]
      · simp [findStatus, settlePromise, h1, h2, ih2]
    · simp [findStatus, settlePromise, h1, ih2]

theorem findStatus_append_of_some (l1 l2 : List (Nat × PromiseState)) (q : Nat)
    (v : PromiseState) (h : findStatus l1 q = some v) :
    findStatus (l1 ++ l2) q = some v := by
  induction l1 with
  | nil => simp [findStatus] at h
  | cons e t ih =>
    by_cases h1 : e.1 = q
    · simp [findStatus, h1] at h ⊢
      exact h
    · simp [findStatus, h1] at h ⊢
      exact ih h

theorem findStatus_append_pending_rejected (l : List (Nat × PromiseState)) (k q2 : Nat)
    (err : String)
    (h : findStatus (l ++ [(k, PromiseState.pending)]) q2 =
      some (PromiseState.rejected err)) :
    findStatus l q2 = some (PromiseState.rejected err) := by
  induction l with
  | nil =>
    by_cases h1 : k = q2 <;> simp [findStatus, h1] at h
  | cons e t ih =>
    by_cases h1 : e.1 = q2
    · simp [findStatus, h1] at h ⊢
      exact h
    · simp [findStatus, h1] at h ⊢
      exact ih h

theorem onExit_active_cleared (s : ManagerState) (p q : Nat) (code : Int)
    (h : s.active_process = some p) :
    (s.onExit p q code).1.active_process = none := by
  cases hsp : s.restart_promise with
  | none =>
    simp only [ManagerState.onExit, h, hsp]
    split
    · split
      · simp [ManagerState.restart]
      · simp
    · simp
  | some q1 =>
    simp only [ManagerState.onExit, h, hsp]
    split
    · split
      · simp [ManagerState.restart]
      · simp
    · simp

theorem onExit_temp_cleared (s : ManagerState) (p q : Nat) (code : Int)
    (h : s.temporary_process = some p) :
    (s.onExit p q code).1.temporary_process = none ∨
    (s.onExit p q code).1.temporary_process = some s.next_pid := by
  cases hsp : s.restart_promise with
  | none =>
    simp only [ManagerState.onExit, h, hsp]
    split
    · split
      · right
        simp [ManagerState.restart]
      · left
        simp
    · left
      simp
  | some q1 =>
    simp only [ManagerState.onExit, h, hsp]
    split
    · split
      · right
        simp [ManagerState.restart]
      · left
        simp
    · left
      simp

theorem onExit_emits_exit (s : ManagerState) (p q : Nat) (code : Int) :
    Effect.emitExit p code ∈ (s.onExit p q code).2 := by
  cases hsp : s.restart_promise with
  | none =>
    simp only [ManagerState.onExit, hsp]
    split
    · split
      · simp [ManagerState.restart]
      · simp
    · simp
  | some q1 =>
    simp only [ManagerState.onExit, hsp]
    split
    · split
      · simp [ManagerState.restart]
      · simp
    · simp

theorem onExit_promises_none (s : ManagerState) (p q : Nat) (code : Int)
    (hsp : s.restart_promise = none) :
    (s.onExit p q code).1.promises = s.promises ∨
    ∃ k, (s.onExit p q code).1.promises = s.promises ++ [(k, PromiseState.pending)] := by
  simp only [ManagerState.onExit, hsp]
  split
  · split
    · right
      exact ⟨s.next_promise, by simp [ManagerState.restart]⟩
    · left
      simp
  · left
    simp

theorem onExit_promises_some (s : ManagerState) (p q q1 : Nat) (code : Int)
    (hsp : s.restart_promise = some q1) :
    (s.onExit p q code).1.promises =
      settlePromise s.promises q (PromiseState.rejected (exitErrMsg p code)) ∨
    ∃ k, (s.onExit p q code).1.promises =
      settlePromise s.promises q (PromiseState.rejected (exitErrMsg p code)) ++
        [(k, PromiseState.pending)] := by
  simp only [ManagerState.onExit, hsp]
  split
  · split
    · right
      exact ⟨s.next_promise, by simp [ManagerState.restart]⟩
    · left
      simp
  · left
    simp

/-- Claim C4 counterexample: reachable scenario in which worker 10 became
active (its promise 100 resolved) and a second restart left promise 101
waiting on pending worker 11; then worker 10 exits, which clears the
in-flight promise slot without settling promise 101; when worker 11 itself
exits afterwards, promise 101 — the restart completion promise waiting on
worker 11 — is never rejected, refuting the claim that a promise waiting on
the exited worker is always rejected. -/
theorem exit_rejects_waiting_promise_cex :
    orphanD.temporary_process = some 11 ∧
    orphanD.restart_promise = some 101 ∧
    findStatus orphanD.promises 101 = some PromiseState.pending ∧
    orphanE.restart_promise = none ∧
    findStatus orphanE.promises 101 = some PromiseState.pending ∧
    Effect.emitExit 11 0 ∈ orphanRun.2 ∧
    findStatus orphanRun.1.promises 101 = some PromiseState.pending := by
  decide

/-- Claim C4 (amended): on every worker exit event the worker is removed
from the active and pending slots if referenced there (the pending slot may
instead hold a freshly spawned recovery worker), an exit notification with
the worker and its exit code is emitted, and if the in-flight restart
promise slot is non-empty then the exiting worker's own restart promise, if
still pending, is rejected with an error identifying the exited worker's
pid and exit code; no other promise is newly rejected, and when the
in-flight slot is empty (for instance because an earlier exit of a
different worker already cleared it) no promise is rejected at all, even if
one was still waiting on this worker. -/
theorem exit_rejects_waiting_promise (s : ManagerState) (p q : Nat) (code : Int) :
    ((s.active_process = some p → (s.onExit p q code).1.active_process = none) ∧
     (s.temporary_process = some p →
        (s.onExit p q code).1.temporary_process = none ∨
        (s.onExit p q code).1.temporary_process = some s.next_pid)) ∧
    Effect.emitExit p code ∈ (s.onExit p q code).2 ∧
    (s.restart_promise.isSome = true →
       findStatus s.promises q = some PromiseState.pending →
       findStatus (s.onExit p q code).1.promises q =
         some (PromiseState.rejected (exitErrMsg p code))) ∧
    (∀ q2 err, q2 ≠ q →
       findStatus (s.onExit p q code).1.promises q2 = some (PromiseState.rejected err) →
       findStatus s.promises q2 = some (PromiseState.rejected err)) ∧
    (s.restart_promise = none →
       ∀ q2 err,
         findStatus (s.onExit p q code).1.promises q2 = some (PromiseState.rejected err) →
         findStatus s.promises q2 = some (PromiseState.rejected err)) := by
  refine ⟨⟨onExit_active_cleared s p q code, onExit_temp_cleared s p q code⟩,
    onExit_emits_exit s p q code, ?_, ?_, ?_⟩
  · intro hsome hpend
    cases hsp : s.restart_promise with
    | none => rw [hsp] at hsome; simp at hsome
    | some q1 =>
      have hst : findStatus
          (settlePromise s.promises q (PromiseState.rejected (exitErrMsg p code))) q =
          some (PromiseState.rejected (exitErrMsg p code)) := by
        rw [findStatus_settle_self, hpend]
        simp
      rcases onExit_promises_some s p q q1 code hsp with hpr | ⟨k, hpr⟩
      · rw [hpr, hst]
      · rw [hpr]
        exact findStatus_append_of_some _ _ _ _ hst
  · intro q2 err hne hfound
    cases hsp : s.restart_promise with
    | none =>
      rcases onExit_promises_none s p q code hsp with hpr | ⟨k, hpr⟩
      · rwa [hpr] at hfound
      · rw [hpr] at hfound
        exact findStatus_append_pending_rejected _ _ _ _ hfound
    | some q1 =>
      rcases onExit_promises_some s p q q1 code hsp with hpr | ⟨k, hpr⟩
      · rw [hpr, findStatus_settle_ne _ _ _ _ hne] at hfound
        exact hfound
      · rw [hpr] at hfound
        have := findStatus_append_pending_rejected _ _ _ _ hfound
        rwa [findStatus_settle_ne _ _ _ _ hne] at this
  · intro hsp q2 err hfound
    rcases onExit_promises_none s p q code hsp with hpr | ⟨k, hpr⟩
    · rwa [hpr] at hfound
    · rw [hpr] at hfound
      exact findStatus_append_pending_rejected _ _ _ _ hfound

/-- Witness for claim C4 (amended): the pending worker 2 of the concrete
in-flight state exits with code 3; its slot is cleared, the exit event is
emitted, and its promise 7 is rejected with the error naming pid 2 and
code 3. -/
theorem exit_rejects_waiting_promise_witness :
    ((inFlightState.onExit 2 7 3).1.temporary_process = none ∨
      (inFlightState.onExit 2 7 3).1.temporary_process = some 3) ∧
    Effect.emitExit 2 3 ∈ (inFlightState.onExit 2 7 3).2 ∧
    findStatus (inFlightState.onExit 2 7 3).1.promises 7 =
      some (PromiseState.rejected (exitErrMsg 2 3)) := by
  have h := exit_rejects_waiting_promise inFlightState 2 7 3
  exact ⟨h.1.2 rfl, h.2.1, h.2.2.1 rfl rfl⟩

theorem strStartsWith_append (p s : String) : strStartsWith (p ++ s) p = true := by
  simp [strStartsWith, String.data_append, List.take_left]

theorem strDropHead_append (p s : String) : strDropHead (p ++ s) p = s := by
  rcases s with ⟨l⟩
  simp [strDropHead, String.data_append, List.drop_left]

theorem append_ne_of_take_ne (p b : String)
    (h : ¬ List.take p.data.length b.data = p.data) : ∀ s, p ++ s ≠ b := by
  intro s he
  apply h
  rw [← he, String.data_append, List.take_left]

theorem requestExit_ne_ready (s : String) : REQUEST_EXIT ++ s ≠ IS_READY_TO_SERVE :=
  append_ne_of_take_ne REQUEST_EXIT IS_READY_TO_SERVE (by decide) s

theorem requestExit_ne_requestRestart (s : String) :
    REQUEST_EXIT ++ s ≠ REQUEST_RESTART :=
  append_ne_of_take_ne REQUEST_EXIT REQUEST_RESTART (by decide) s

theorem onExit_no_spawn_of_recover_false (s : ManagerState)
    (h : s.recover = some false) (p q : Nat) (code : Int) :
    countSpawns (s.onExit p q code).2 = 0 ∧ (s.onExit p q code).1.recover = some false := by
  cases hsp : s.restart_promise with
  | none => simp [ManagerState.onExit, hsp, h, countSpawns, isSpawnEffect]
  | some q1 => simp [ManagerState.onExit, hsp, h, countSpawns, isSpawnEffect]

/-- Claim C5: a worker client calling exit(code) sends the exit-request
token with the code appended; on receiving any exit-request message the
manager disables future automatic recovery (so no later worker exit can
spawn a recovery restart), sends a kill signal to the requesting worker,
and terminates the supervising process with the code parsed from the
message. -/
theorem exit_request_shuts_down (s : ManagerState) (p q : Nat) (env : ClientEnv)
    (code : JsVal) (payload : String) (hworker : master env = false) :
    clientExit env code =
      Except.ok [ClientEffect.sendToMaster (REQUEST_EXIT ++ jsTemplate code)] ∧
    s.onMessage p q (REQUEST_EXIT ++ payload) =
      ({ s with recover := some false }
      , [Effect.kill p, Effect.masterExit (parseExitArg payload)]) ∧
    ∀ p2 q2 c2,
      countSpawns (((s.onMessage p q (REQUEST_EXIT ++ payload)).1.onExit p2 q2 c2)).2 = 0 := by
  have hhandle : s.onMessage p q (REQUEST_EXIT ++ payload) =
      ({ s with recover := some false }
      , [Effect.kill p, Effect.masterExit (parseExitArg payload)]) := by
    rw [ManagerState.onMessage]
    rw [if_neg (requestExit_ne_ready payload), if_neg (requestExit_ne_requestRestart payload),
      if_pos]
    · rw [strDropHead_append]
    · exact strStartsWith_append REQUEST_EXIT payload
  refine ⟨?_, hhandle, ?_⟩
  · simp [clientExit, hworker]
  · intro p2 q2 c2
    rw [hhandle]
    exact (onExit_no_spawn_of_recover_false _ rfl p2 q2 c2).1

/-- Witness for claim C5: worker 2 of the concrete in-flight state requests
an exit with numeric code 0; the manager disables recovery, kills worker 2
and exits the supervisor with code 0, and a subsequent exit of worker 1
spawns nothing. -/
theorem exit_request_shuts_down_witness :
    clientExit recurringEnv (JsVal.vnum 0) =
      Except.ok [ClientEffect.sendToMaster (REQUEST_EXIT ++ "0")] ∧
    inFlightState.onMessage 2 7 (REQUEST_EXIT ++ "0") =
      ({ recover := some false, recover_attempts := 100, active_process := some 1
        , temporary_process := some 2, restart_promise := some 7
        , promises := [(7, PromiseState.pending)], next_pid := 3, next_promise := 8 }
      , [Effect.kill 2, Effect.masterExit (ExitArg.intArg 0)]) ∧
    countSpawns (((inFlightState.onMessage 2 7 (REQUEST_EXIT ++ "0")).1.onExit 1 7 1)).2
      = 0 := by
  have h := exit_request_shuts_down inFlightState 2 7 recurringEnv (JsVal.vnum 0) "0"
    (by decide)
  refine ⟨h.1, ?_, h.2.2 1 7 1⟩
  rw [h.2.1]
  decide

/-- Claim C6: a worker client calling restart() sends the restart-request
token; on receiving it the manager invokes restart(), spawning exactly one
worker when no transition is in flight, and coalescing onto the in-flight
transition (no state change, no spawn) when one is. -/
theorem restart_request_triggers_cycle (s : ManagerState) (p q : Nat) (env : ClientEnv)
    (hworker : master env = false) (hidle : s.restart_promise = none) :
    clientRestart env = Except.ok [ClientEffect.sendToMaster REQUEST_RESTART] ∧
    s.onMessage p q REQUEST_RESTART = (s.restart.1, s.restart.2.1) ∧
    countSpawns (s.onMessage p q REQUEST_RESTART).2 = 1 ∧
    ∀ (s2 : ManagerState) (q2 : Nat), s2.restart_promise = some q2 →
      s2.onMessage p q REQUEST_RESTART = (s2, []) := by
  have hne : REQUEST_RESTART ≠ IS_READY_TO_SERVE := by decide
  have hhandle : ∀ s3 : ManagerState,
      s3.onMessage p q REQUEST_RESTART = (s3.restart.1, s3.restart.2.1) := by
    intro s3
    rw [ManagerState.onMessage, if_neg hne, if_pos rfl]
  refine ⟨by simp [clientRestart, hworker], hhandle s, ?_, ?_⟩
  · rw [hhandle s, restart_of_idle s hidle]
    simp [countSpawns, isSpawnEffect]
  · intro s2 q2 h2
    rw [hhandle s2, restart_of_inflight s2 q2 h2]

/-- Witness for claim C6: a recurring worker sends the restart-request
token; the idle manager spawns exactly one worker on receiving it, and the
in-flight manager is left unchanged. -/
theorem restart_request_triggers_cycle_witness :
    clientRestart recurringEnv = Except.ok [ClientEffect.sendToMaster REQUEST_RESTART] ∧
    countSpawns (idleState.onMessage 9 9 REQUEST_RESTART).2 = 1 ∧
    inFlightState.onMessage 9 9 REQUEST_RESTART = (inFlightState, []) := by
  have h := restart_request_triggers_cycle idleState 9 9 recurringEnv (by decide) rfl
  exact ⟨h.1, h.2.2.1, h.2.2.2 inFlightState 7 rfl⟩

theorem restart_of_destroyed (m : DestroyableManager) (h : m.destroyed = true) :
    m.restart = (m, [], Except.error destroyedErr) := by
  simp [DestroyableManager.restart, h]

/-- Claim C7: destroy() sends a kill signal to every tracked worker (the
active and the pending one) and puts the manager in a terminal destroyed
state in which every subsequent restart() call is rejected with an error
and performs no effect. -/
theorem destroy_kills_all_and_blocks_restart (m : DestroyableManager) :
    (∀ a, m.st.active_process = some a → Effect.kill a ∈ m.destroy.2) ∧
    (∀ t, m.st.temporary_process = some t → Effect.kill t ∈ m.destroy.2) ∧
    m.destroy.1.destroyed = true ∧
    ∀ n, restartSeq m.destroy.1 n =
      (m.destroy.1, List.replicate n (Except.error destroyedErr)) := by
  refine ⟨?_, ?_, rfl, ?_⟩
  · intro a ha
    simp [DestroyableManager.destroy, ha]
  · intro t ht
    simp [DestroyableManager.destroy, ht]
  · intro n
    induction n with
    | zero => simp [restartSeq]
    | succ n ih =>
      simp [restartSeq, restart_of_destroyed m.destroy.1 rfl, ih, List.replicate]

/-- Witness for claim C7: destroying the concrete manager with active
worker 1 and pending worker 2 kills both, and three subsequent restart
calls are all rejected. -/
theorem destroy_kills_all_and_blocks_restart_witness :
    Effect.kill 1 ∈ liveManager.destroy.2 ∧
    Effect.kill 2 ∈ liveManager.destroy.2 ∧
    liveManager.destroy.1.destroyed = true ∧
    restartSeq liveManager.destroy.1 3 =
      (liveManager.destroy.1, [Except.error destroyedErr, Except.error destroyedErr,
        Except.error destroyedErr]) := by
  have h := destroy_kills_all_and_blocks_restart liveManager
  exact ⟨h.1 1 rfl, h.2.1 2 rfl, h.2.2.1, h.2.2.2 3⟩

/-- Claim C8 counterexample: in the ESM worker client, a worker whose
environment carries the initial role marker gets an immediately resolved
ready result without the ready-to-serve message being sent, refuting the
claim that the ready wait of every initial worker sends ready-to-serve. -/
theorem initial_ready_immediate_cex :
    readyEsm initialEnv = ([], ReadyOutcome.resolvedNow) ∧
    ClientEffect.sendToMaster IS_READY_TO_SERVE ∉ (readyEsm initialEnv).1 := by
  decide

/-- Claim C8 (amended): for every worker whose environment carries the
initial role marker, the CJS worker client ready() sends the ready-to-serve
message and returns an immediately resolved result, while the ESM variant
returns an immediately resolved result without sending anything; in both
variants no message listener is registered and nothing waits on
begin-serving. -/
theorem initial_ready_immediate (env : ClientEnv) (h : env.initial_marker = true) :
    ready env = ([ClientEffect.sendToMaster IS_READY_TO_SERVE], ReadyOutcome.resolvedNow) ∧
    ClientEffect.bindListener ∉ (ready env).1 ∧
    readyEsm env = ([], ReadyOutcome.resolvedNow) ∧
    ClientEffect.bindListener ∉ (readyEsm env).1 := by
  simp [ready, readyEsm, h]

/-- Witness for claim C8 (amended) at the concrete initial environment. -/
theorem initial_ready_immediate_witness :
    ready initialEnv =
      ([ClientEffect.sendToMaster IS_READY_TO_SERVE], ReadyOutcome.resolvedNow) ∧
    readyEsm initialEnv = ([], ReadyOutcome.resolvedNow) := by
  have h := initial_ready_immediate initialEnv rfl
  exact ⟨h.1, h.2.2.1⟩

/-- Claim C9: a recurring worker whose ready wait is started arms a timer
with the configured IPC timeout (5000 ms when the environment carries no
override); when that timer fires on a still-pending wait, the message
listener is removed from the channel before the promise is rejected with
the timeout error, and a begin-serving message delivered afterwards no
longer has any effect on the already failed wait. -/
theorem recurring_ready_timeout (env : ClientEnv) (w : WaitState)
    (h1 : env.initial_marker = false) (h2 : env.recurring_marker = true)
    (h3 : env.connected = true) (h4 : env.memo_exists = false)
    (hw1 : w.timer_armed = true) (hw2 : w.promise = PromiseState.pending) :
    (ready env).1 =
      [ClientEffect.armTimer (ipcTimeoutMs env.ipc_timeout_env), ClientEffect.bindListener,
       ClientEffect.sendToMaster IS_READY_TO_SERVE] ∧
    ipcTimeoutMs none = 5000 ∧
    (w.timerFire (ipcTimeoutMs env.ipc_timeout_env)).2 =
      [ClientAction.removeListener,
       ClientAction.rejectWait (timeoutErr (ipcTimeoutMs env.ipc_timeout_env))] ∧
    (w.timerFire (ipcTimeoutMs env.ipc_timeout_env)).1.listener_bound = false ∧
    (w.timerFire (ipcTimeoutMs env.ipc_timeout_env)).1.promise =
      PromiseState.rejected (timeoutErr (ipcTimeoutMs env.ipc_timeout_env)) ∧
    (w.timerFire (ipcTimeoutMs env.ipc_timeout_env)).1.deliver SHOULD_BEGIN_TO_SERVE =
      ((w.timerFire (ipcTimeoutMs env.ipc_timeout_env)).1, []) := by
  refine ⟨by simp [ready, h1, h2, h3, h4], rfl, ?_, ?_, ?_, ?_⟩
  · simp [WaitState.timerFire, hw1]
  · simp [WaitState.timerFire, hw1]
  · simp [WaitState.timerFire, hw1, hw2, settleOne]
  · simp [WaitState.timerFire, hw1, WaitState.deliver]

/-- Witness for claim C9: the concrete recurring environment with no
timeout override arms a 5000 ms timer, and firing it on a fresh wait
removes the listener, rejects the wait, and makes a late begin-serving
message a no-op. -/
theorem recurring_ready_timeout_witness :
    (ready recurringEnv).1 =
      [ClientEffect.armTimer 5000, ClientEffect.bindListener,
       ClientEffect.sendToMaster IS_READY_TO_SERVE] ∧
    (freshWait.timerFire 5000).2 =
      [ClientAction.removeListener, ClientAction.rejectWait (timeoutErr 5000)] ∧
    (freshWait.timerFire 5000).1.promise = PromiseState.rejected (timeoutErr 5000) ∧
    (freshWait.timerFire 5000).1.deliver SHOULD_BEGIN_TO_SERVE =
      ((freshWait.timerFire 5000).1, []) := by
  have h := recurring_ready_timeout recurringEnv freshWait rfl rfl rfl rfl rfl rfl
  exact ⟨h.1, h.2.2.1, h.2.2.2.2.1, h.2.2.2.2.2⟩

/-- Claim C10: constructing the manager with the recover_attempts option
absent or set to the falsy value 0 initializes the recovery budget to the
default of 100 (any non-zero count is kept); in particular a zero attempt
count cannot disable automatic recovery: in a manager built with
recover_attempts 0 whose active worker exits, a recovery restart is still
spawned and the budget becomes 99. -/
theorem recover_attempts_zero_defaults :
    initRecoverAttempts (some 0) = 100 ∧
    initRecoverAttempts none = 100 ∧
    (∀ n : Nat, n ≠ 0 → initRecoverAttempts (some n) = n) ∧
    zeroAttemptsState.recover_attempts = 100 ∧
    countSpawns (zeroAttemptsState.onExit 3 1 1).2 = 1 ∧
    (zeroAttemptsState.onExit 3 1 1).1.recover_attempts = 99 := by
  refine ⟨rfl, rfl, ?_, rfl, by decide, by decide⟩
  intro n hn
  simp [initRecoverAttempts, hn]

/-- Witness for claim C10, instantiating the non-zero case at 7. -/
theorem recover_attempts_zero_defaults_witness :
    initRecoverAttempts (some 7) = 7 ∧ initRecoverAttempts (some 0) = 100 := by
  have h := recover_attempts_zero_defaults
  exact ⟨h.2.2.1 7 (by decide), h.1⟩

end RollStarts
